import Mathlib

/-!
Verification of the Roofrix order-management application.

The definitions below are a shallow embedding of the TypeScript source:
* `pricing.service.ts` — structure categories and per-category pricing,
* `order.service.ts` — the order data model and its CRUD operations
  (the embedded-timeline version of the service; `markMessageAsRead`
  comes from the message-handling part of the service),
* the new-order component — price computation and order submission,
* the order-review component — `confirmOrder`,
* `role.guard.ts` — role-based route guard.

Firestore documents are modelled as an explicit store (a function from
ids to optional documents); timestamps are abstract `Nat` values passed
in by the caller; JavaScript numbers used for prices are modelled as
`Int` (all price arithmetic in the source is integer addition).
The JavaScript `x || y` fallback treats `0` and the empty string as
falsy; where the source uses it on numbers or strings this is modelled
exactly (`orNullNum`, `orDefaultStr`, `optStrOr`).
-/

namespace Roofrix

/-! ### Data model (order.service.ts) -/

/-- The five order statuses of `OrderStatus` in order.service.ts. -/
inductive OrderStatus where
  | pending
  | in_progress
  | review
  | completed
  | cancelled
deriving DecidableEq, Repr

/-- Roles appearing in `changedByRole` fields. -/
inductive ChangedByRole where
  | admin
  | customer
  | designer
  | system
deriving DecidableEq, Repr

/-- Order priority values. -/
inductive Priority where
  | low
  | medium
  | high
deriving DecidableEq, Repr

/-- Snapshot of the selected report type (`OrderReportType`). -/
structure OrderReportType where
  id : String
  name : String
  description : String
  price : Int
deriving DecidableEq, Repr

/-- Snapshot of a selected addon (`OrderAddon`). -/
structure OrderAddon where
  id : String
  name : String
  price : Int
deriving DecidableEq, Repr

/-- One entry of the status timeline (`StatusTimelineEntry`).
The source writes `notes: notes || ''`, so notes is a plain string here. -/
structure StatusTimelineEntry where
  status : OrderStatus
  changedAt : Nat
  changedBy : String
  changedByEmail : String
  changedByRole : ChangedByRole
  notes : String
deriving DecidableEq, Repr

/-- A map location `{ lat, lng, address }`. -/
structure MapLocation where
  lat : Int
  lng : Int
  address : String
deriving DecidableEq, Repr

/-- The `Order` document interface of order.service.ts. -/
structure Order where
  orderNumber : String
  customerId : String
  customerEmail : String
  customerName : String
  assignedDesignerId : Option String
  assignedDesignerEmail : Option String
  projectAddress : String
  latitude : Option Int
  longitude : Option Int
  location : Option MapLocation
  reportType : OrderReportType
  addons : List OrderAddon
  structureCategory : String
  structureCategoryName : String
  structureCategorySqRange : String
  primaryPitch : String
  secondaryPitch : String
  specialInstructions : String
  basePrice : Int
  addonsTotal : Int
  totalPrice : Int
  status : OrderStatus
  statusTimeline : List StatusTimelineEntry
  siteImages : List String
  designFiles : List String
  createdAt : Nat
  updatedAt : Nat
  completedAt : Option Nat
  priority : Priority
  projectName : String
  projectDescription : String
deriving DecidableEq, Repr

/-- The `CreateOrderData` interface (optional fields are `Option`). -/
structure CreateOrderData where
  customerId : String
  customerEmail : String
  customerName : String
  projectAddress : String
  latitude : Option Int
  longitude : Option Int
  location : Option MapLocation
  reportType : OrderReportType
  addons : List OrderAddon
  structureCategory : String
  structureCategoryName : String
  structureCategorySqRange : String
  primaryPitch : Option String
  secondaryPitch : Option String
  specialInstructions : Option String
  basePrice : Int
  addonsTotal : Int
  totalPrice : Int
  priority : Priority
deriving DecidableEq, Repr

/-- The `OrderMessage` document interface. -/
structure OrderMessage where
  orderId : String
  senderId : String
  senderEmail : String
  senderRole : ChangedByRole
  message : String
  attachments : List String
  createdAt : Nat
  isRead : Bool
  readBy : List String
deriving DecidableEq, Repr

/-! ### JavaScript falsy fallbacks -/

/-- JavaScript `x || null` on an optional number: `0` is falsy and falls
back to `null`. -/
def orNullNum (x : Option Int) : Option Int :=
  match x with
  | some v => if v = 0 then none else some v
  | none => none

/-- JavaScript `s || fallback` on a string: the empty string is falsy. -/
def orDefaultStr (s : String) (fallback : String) : String :=
  if s = "" then fallback else s

/-- JavaScript `s || fallback` on an optional string. -/
def optStrOr (s : Option String) (fallback : String) : String :=
  match s with
  | some v => orDefaultStr v fallback
  | none => fallback

/-! ### Order service operations (order.service.ts)

`createOrder` builds the order document stored by `setDocument`; the
generated `orderNumber`, the generated document id and the server
timestamp are passed in as parameters (they come from the clock and a
random source in the TypeScript).  `updateOrderStatus`, `assignDesigner`,
`addSiteImages` and `addDesignFiles` issue a partial `updateDocument`;
the `*Upd` functions below give the merged document that results. -/

/-- Order document built by `createOrder` (order.service.ts lines 190-253). -/
def createOrder (data : CreateOrderData) (createdBy : String) (timestamp : Nat)
    (orderNumber : String) : Order :=
  let initialStatusEntry : StatusTimelineEntry :=
    { status := .pending
      changedAt := timestamp
      changedBy := createdBy
      changedByEmail := data.customerEmail
      changedByRole := .customer
      notes := "Order created" }
  let projectName := data.reportType.name ++ " - " ++ data.projectAddress
  { orderNumber := orderNumber
    customerId := data.customerId
    customerEmail := data.customerEmail
    customerName := data.customerName
    assignedDesignerId := none
    assignedDesignerEmail := none
    projectAddress := data.projectAddress
    latitude := orNullNum data.latitude
    longitude := orNullNum data.longitude
    location := data.location
    reportType := data.reportType
    addons := data.addons
    structureCategory := data.structureCategory
    structureCategoryName := data.structureCategoryName
    structureCategorySqRange := data.structureCategorySqRange
    primaryPitch := optStrOr data.primaryPitch ""
    secondaryPitch := optStrOr data.secondaryPitch ""
    specialInstructions := optStrOr data.specialInstructions ""
    basePrice := data.basePrice
    addonsTotal := data.addonsTotal
    totalPrice := data.totalPrice
    status := .pending
    statusTimeline := [initialStatusEntry]
    siteImages := []
    designFiles := []
    createdAt := timestamp
    updatedAt := timestamp
    completedAt := none
    priority := data.priority
    projectName := projectName
    projectDescription := optStrOr data.specialInstructions "" }

/-- Merged order after the `updateOrderStatus` partial update:
new status, a timeline entry appended, `updatedAt` refreshed, and
`completedAt` set only when the new status is `completed`. -/
def updateOrderStatusUpd (order : Order) (newStatus : OrderStatus)
    (changedBy changedByEmail : String) (changedByRole : ChangedByRole)
    (notes : Option String) (timestamp : Nat) : Order :=
  let timelineEntry : StatusTimelineEntry :=
    { status := newStatus
      changedAt := timestamp
      changedBy := changedBy
      changedByEmail := changedByEmail
      changedByRole := changedByRole
      notes := optStrOr notes "" }
  { order with
    status := newStatus
    statusTimeline := order.statusTimeline ++ [timelineEntry]
    updatedAt := timestamp
    completedAt := if newStatus = .completed then some timestamp else order.completedAt }

/-- Merged order after the `assignDesigner` partial update. -/
def assignDesignerUpd (order : Order)
    (designerId designerEmail assignedBy assignedByEmail : String)
    (timestamp : Nat) : Order :=
  let timelineEntry : StatusTimelineEntry :=
    { status := order.status
      changedAt := timestamp
      changedBy := assignedBy
      changedByEmail := assignedByEmail
      changedByRole := .admin
      notes := "Assigned to designer: " ++ designerEmail }
  { order with
    assignedDesignerId := some designerId
    assignedDesignerEmail := some designerEmail
    statusTimeline := order.statusTimeline ++ [timelineEntry]
    updatedAt := timestamp }

/-- Merged order after `addSiteImages` (appends to `siteImages` only). -/
def addSiteImagesUpd (order : Order) (imageUrls : List String) : Order :=
  { order with siteImages := order.siteImages ++ imageUrls }

/-- Merged order after `addDesignFiles` (appends to `designFiles` only). -/
def addDesignFilesUpd (order : Order) (fileUrls : List String) : Order :=
  { order with designFiles := order.designFiles ++ fileUrls }

/-! ### Firestore store model -/

/-- The Firestore state visible to the order service: the `orders`
collection and the per-order `messages` subcollections (keyed by order
id and message id). -/
structure AppState where
  orders : String → Option Order
  messages : String → String → Option OrderMessage

/-- `getOrder`: document lookup in the orders collection. -/
def getOrder (st : AppState) (orderId : String) : Option Order :=
  st.orders orderId

/-- Write one order document (`setDocument` / merged `updateDocument`). -/
def setOrder (st : AppState) (orderId : String) (o : Order) : AppState :=
  { st with orders := fun k => if k = orderId then some o else st.orders k }

/-- Write one message document in an order's messages subcollection. -/
def setMessage (st : AppState) (orderId messageId : String) (m : OrderMessage) : AppState :=
  { st with
    messages := fun oid mid =>
      if oid = orderId ∧ mid = messageId then some m else st.messages oid mid }

/-- Store-level `createOrder`: unconditionally sets the new document. -/
def createOrderS (st : AppState) (data : CreateOrderData) (createdBy : String)
    (timestamp : Nat) (orderNumber orderId : String) : AppState :=
  setOrder st orderId (createOrder data createdBy timestamp orderNumber)

/-- Store-level `updateOrderStatus`: reads the order first and throws
`Order not found` (writing nothing) when it is missing. -/
def updateOrderStatusS (st : AppState) (orderId : String) (newStatus : OrderStatus)
    (changedBy changedByEmail : String) (changedByRole : ChangedByRole)
    (notes : Option String) (timestamp : Nat) : Except String Unit × AppState :=
  match getOrder st orderId with
  | none => (.error "Order not found", st)
  | some order =>
      (.ok (), setOrder st orderId
        (updateOrderStatusUpd order newStatus changedBy changedByEmail
          changedByRole notes timestamp))

/-- Store-level `assignDesigner`. -/
def assignDesignerS (st : AppState) (orderId : String)
    (designerId designerEmail assignedBy assignedByEmail : String)
    (timestamp : Nat) : Except String Unit × AppState :=
  match getOrder st orderId with
  | none => (.error "Order not found", st)
  | some order =>
      (.ok (), setOrder st orderId
        (assignDesignerUpd order designerId designerEmail assignedBy
          assignedByEmail timestamp))

/-- Store-level `addSiteImages`. -/
def addSiteImagesS (st : AppState) (orderId : String)
    (imageUrls : List String) : Except String Unit × AppState :=
  match getOrder st orderId with
  | none => (.error "Order not found", st)
  | some order => (.ok (), setOrder st orderId (addSiteImagesUpd order imageUrls))

/-- Store-level `addDesignFiles`. -/
def addDesignFilesS (st : AppState) (orderId : String)
    (fileUrls : List String) : Except String Unit × AppState :=
  match getOrder st orderId with
  | none => (.error "Order not found", st)
  | some order => (.ok (), setOrder st orderId (addDesignFilesUpd order fileUrls))

/-- Store-level `addMessage`: writes a message document in the order's
subcollection; the orders collection is untouched. -/
def addMessageS (st : AppState) (orderId messageId senderId senderEmail : String)
    (senderRole : ChangedByRole) (message : String)
    (attachments : Option (List String)) (timestamp : Nat) : AppState :=
  setMessage st orderId messageId
    { orderId := orderId
      senderId := senderId
      senderEmail := senderEmail
      senderRole := senderRole
      message := message
      attachments := attachments.getD []
      createdAt := timestamp
      isRead := false
      readBy := [senderId] }

/-- `markMessageAsRead` (order.service.ts): adds `userId` to `readBy`
and sets `isRead` only when the message exists and `userId` is not
already in `readBy`; otherwise writes nothing. -/
def markMessageAsRead (st : AppState) (orderId messageId userId : String) : AppState :=
  match st.messages orderId messageId with
  | none => st
  | some message =>
      if userId ∈ message.readBy then st
      else
        setMessage st orderId messageId
          { message with readBy := message.readBy ++ [userId], isRead := true }

/-! ### Pricing service (pricing.service.ts) -/

/-- The three structure category ids (`StructureCategoryId`). -/
inductive StructureCategoryId where
  | basic
  | moderate
  | complex
deriving DecidableEq, Repr

/-- String form of a category id (the TypeScript value is the string). -/
def categoryIdStr : StructureCategoryId → String
  | .basic => "basic"
  | .moderate => "moderate"
  | .complex => "complex"

/-- A structure category record (`StructureCategory`). -/
structure StructureCategory where
  id : StructureCategoryId
  name : String
  description : String
  sqRange : String
  minSq : Nat
  maxSq : Option Nat
deriving DecidableEq, Repr

/-- A report type as returned by the pricing service (`ReportType`). -/
structure ReportType where
  id : String
  name : String
  description : String
  price : Int
  isActive : Bool
  sortOrder : Nat
  createdAt : Option Nat
  updatedAt : Option Nat
deriving DecidableEq, Repr

/-- An addon as returned by the pricing service (`Addon`). -/
structure Addon where
  id : String
  name : String
  price : Int
  badge : Option String
  isActive : Bool
  sortOrder : Nat
  createdAt : Option Nat
  updatedAt : Option Nat
deriving DecidableEq, Repr

/-- A raw report-type literal of `CATEGORY_PRICING`. -/
structure RawReportType where
  id : String
  name : String
  description : String
  price : Int
deriving DecidableEq, Repr

/-- A raw addon literal of `CATEGORY_PRICING`. -/
structure RawAddon where
  id : String
  name : String
  price : Int
  badge : Option String
deriving DecidableEq, Repr

/-- Pricing configuration per structure category. -/
structure StructureCategoryPricing where
  category : StructureCategory
  reportTypes : List ReportType
  addons : List Addon
deriving DecidableEq, Repr

/-- `STRUCTURE_CATEGORIES` (pricing.service.ts lines 79-104). -/
def STRUCTURE_CATEGORIES : List StructureCategory :=
  [ { id := .basic
      name := "Basic Structure"
      description := "Small residential properties"
      sqRange := "< 30 SQs"
      minSq := 0
      maxSq := some 30 },
    { id := .moderate
      name := "Moderate Structure"
      description := "Medium-sized residential properties"
      sqRange := "30 - 60 SQs"
      minSq := 30
      maxSq := some 60 },
    { id := .complex
      name := "Complex / Commercial Structure"
      description := "Large residential or commercial properties"
      sqRange := "> 60 SQs"
      minSq := 60
      maxSq := none } ]

/-- `CATEGORY_PRICING` (pricing.service.ts lines 110-162), keyed by
category id; first component the report types, second the addons.
The report-type literals are repeated per category exactly as in the
source (whose comment notes they are the same across all categories). -/
def CATEGORY_PRICING : StructureCategoryId → List RawReportType × List RawAddon
  | .basic =>
      ([ { id := "roof_esx_only", name := "Roof ESX only", description := "ESX format", price := 14 },
         { id := "roof_esx_pdf", name := "Roof ESX+PDF", description := "ESX with PDF report", price := 19 },
         { id := "roof_xml_only", name := "Roof XML only", description := "XML format", price := 14 },
         { id := "roof_xml_pdf", name := "Roof XML+PDF", description := "XML with PDF report", price := 19 },
         { id := "wall_esx_x1", name := "Wall ESX only (X1)", description := "Single wall ESX", price := 33 },
         { id := "wall_esx_pdf_x1", name := "Wall ESX+PDF (X1)", description := "Single wall ESX with PDF", price := 42 },
         { id := "wall_esx_x2", name := "Wall ESX only (X2)", description := "Double wall ESX", price := 33 },
         { id := "wall_esx_pdf_x2", name := "Wall ESX+PDF (X2)", description := "Double wall ESX with PDF", price := 42 } ],
       [ { id := "basic_rush_2h", name := "2-Hour Rush", price := 20, badge := some "URGENT" },
         { id := "basic_fence", name := "Fence", price := 8, badge := none },
         { id := "basic_deck", name := "Deck", price := 8, badge := none } ])
  | .moderate =>
      ([ { id := "roof_esx_only", name := "Roof ESX only", description := "ESX format", price := 14 },
         { id := "roof_esx_pdf", name := "Roof ESX+PDF", description := "ESX with PDF report", price := 19 },
         { id := "roof_xml_only", name := "Roof XML only", description := "XML format", price := 14 },
         { id := "roof_xml_pdf", name := "Roof XML+PDF", description := "XML with PDF report", price := 19 },
         { id := "wall_esx_x1", name := "Wall ESX only (X1)", description := "Single wall ESX", price := 33 },
         { id := "wall_esx_pdf_x1", name := "Wall ESX+PDF (X1)", description := "Single wall ESX with PDF", price := 42 },
         { id := "wall_esx_x2", name := "Wall ESX only (X2)", description := "Double wall ESX", price := 33 },
         { id := "wall_esx_pdf_x2", name := "Wall ESX+PDF (X2)", description := "Double wall ESX with PDF", price := 42 } ],
       [ { id := "moderate_rush_2h", name := "2-Hour Rush", price := 30, badge := some "URGENT" },
         { id := "moderate_fence", name := "Fence", price := 12, badge := none },
         { id := "moderate_deck", name := "Deck", price := 12, badge := none } ])
  | .complex =>
      ([ { id := "roof_esx_only", name := "Roof ESX only", description := "ESX format", price := 14 },
         { id := "roof_esx_pdf", name := "Roof ESX+PDF", description := "ESX with PDF report", price := 19 },
         { id := "roof_xml_only", name := "Roof XML only", description := "XML format", price := 14 },
         { id := "roof_xml_pdf", name := "Roof XML+PDF", description := "XML with PDF report", price := 19 },
         { id := "wall_esx_x1", name := "Wall ESX only (X1)", description := "Single wall ESX", price := 33 },
         { id := "wall_esx_pdf_x1", name := "Wall ESX+PDF (X1)", description := "Single wall ESX with PDF", price := 42 },
         { id := "wall_esx_x2", name := "Wall ESX only (X2)", description := "Double wall ESX", price := 33 },
         { id := "wall_esx_pdf_x2", name := "Wall ESX+PDF (X2)", description := "Double wall ESX with PDF", price := 42 } ],
       [ { id := "complex_rush_2h", name := "2-Hour Rush", price := 50, badge := some "URGENT" },
         { id := "complex_fence", name := "Fence", price := 20, badge := none },
         { id := "complex_deck", name := "Deck", price := 20, badge := none } ])

/-- `getStructureCategory`: find the category record by id. -/
def getStructureCategory (categoryId : StructureCategoryId) : Option StructureCategory :=
  STRUCTURE_CATEGORIES.find? (fun c => c.id == categoryId)

/-- Decoration of the raw report types by `getPricingByCategory`
(`map((rt, index) => ...)` with `sortOrder = index + 1`). -/
def decorateReportTypes : Nat → List RawReportType → List ReportType
  | _, [] => []
  | index, rt :: rest =>
      { id := rt.id
        name := rt.name
        description := rt.description
        price := rt.price
        isActive := true
        sortOrder := index + 1
        createdAt := none
        updatedAt := none } :: decorateReportTypes (index + 1) rest

/-- Decoration of the raw addons by `getPricingByCategory`. -/
def decorateAddons : Nat → List RawAddon → List Addon
  | _, [] => []
  | index, addon :: rest =>
      { id := addon.id
        name := addon.name
        price := addon.price
        badge := addon.badge
        isActive := true
        sortOrder := index + 1
        createdAt := none
        updatedAt := none } :: decorateAddons (index + 1) rest

/-- `getPricingByCategory` (pricing.service.ts lines 181-206).
`CATEGORY_PRICING[categoryId]` is total, so only the category lookup
can make the `!category || !pricing` guard return null. -/
def getPricingByCategory (categoryId : StructureCategoryId) :
    Option StructureCategoryPricing :=
  match getStructureCategory categoryId with
  | none => none
  | some category =>
      let pricing := CATEGORY_PRICING categoryId
      some
        { category := category
          reportTypes := decorateReportTypes 0 pricing.1
          addons := decorateAddons 0 pricing.2 }

/-- Addon price list offered for a category (empty when the category has
no pricing). -/
def categoryAddonPrices (c : StructureCategoryId) : List Int :=
  match getPricingByCategory c with
  | some p => p.addons.map (fun a => a.price)
  | none => []

/-- Report-type list offered for a category. -/
def categoryReportTypes (c : StructureCategoryId) : List ReportType :=
  match getPricingByCategory c with
  | some p => p.reportTypes
  | none => []

/-! ### New-order component (pages/dashboard/customer/new-order)

The component state relevant to pricing: the report types and addons
loaded for the selected category, the value of the `reportType` form
control, the selected addons (values of the `selectedAddons` map in
insertion order), and the form fields read by `onSubmit`. -/

/-- The component-local `Addon` interface (has an optional badge). -/
structure NewOrderAddon where
  id : String
  name : String
  price : Int
  badge : Option String
deriving DecidableEq, Repr

/-- State of the new-order component used by the pricing getters and
`onSubmit`.  The local `ReportType` interface has exactly the fields of
`OrderReportType`, which is used for it here. -/
structure NewOrderState where
  reportTypes : List OrderReportType
  reportTypeControl : Option String
  selectedAddons : List NewOrderAddon
  address : String
  selectedLocation : Option MapLocation
  selectedStructureCategory : StructureCategoryId
  structureCategoryInfo : Option StructureCategory
  structureType : String
  primaryPitch : String
  secondaryPitch : String
  specialInstructions : String
deriving DecidableEq, Repr

/-- `getSelectedReportType()`: find the report type whose id equals the
form control value. -/
def getSelectedReportType (c : NewOrderState) : Option OrderReportType :=
  match c.reportTypeControl with
  | none => none
  | some selectedId => c.reportTypes.find? (fun t => t.id == selectedId)

/-- `getBasePrice()`: `selectedType?.price || 0` (for a missing selection
the price is 0; `0 || 0` is also 0, so the falsy fallback coincides with
the plain match). -/
def getBasePrice (c : NewOrderState) : Int :=
  match getSelectedReportType c with
  | some selectedType => selectedType.price
  | none => 0

/-- `getAddonsTotal()`: fold accumulating the selected addon prices. -/
def getAddonsTotal (c : NewOrderState) : Int :=
  c.selectedAddons.foldl (fun total addon => total + addon.price) 0

/-- `getTotalPrice()`. -/
def getTotalPrice (c : NewOrderState) : Int :=
  getBasePrice c + getAddonsTotal c

/-- The order data object `onSubmit` stores for the review page. -/
structure ReviewOrderData where
  address : String
  location : Option MapLocation
  latitude : Option Int
  longitude : Option Int
  reportType : OrderReportType
  addons : List OrderAddon
  structureCategory : String
  structureCategoryName : String
  structureCategorySqRange : String
  structureType : String
  primaryPitch : String
  secondaryPitch : String
  specialInstructions : String
  basePrice : Int
  addonsTotal : Int
  totalPrice : Int
deriving DecidableEq, Repr

/-- `this.orderForm.invalid`: the `address` and `reportType` controls
carry `Validators.required`, which fails on the empty string or a
missing value. -/
def formInvalid (c : NewOrderState) : Bool :=
  c.address == "" || c.reportTypeControl.getD "" == ""

/-- `onSubmit()`: returns the stored review data, or nothing on the two
early returns (invalid form; no selected report type). -/
def onSubmit (c : NewOrderState) : Option ReviewOrderData :=
  if formInvalid c then none
  else
    match getSelectedReportType c with
    | none => none
    | some selectedReportType =>
        some
          { address := c.address
            location := c.selectedLocation
            latitude := orNullNum (c.selectedLocation.map (fun l => l.lat))
            longitude := orNullNum (c.selectedLocation.map (fun l => l.lng))
            reportType := selectedReportType
            addons := c.selectedAddons.map (fun a =>
              { id := a.id, name := a.name, price := a.price })
            structureCategory := categoryIdStr c.selectedStructureCategory
            structureCategoryName :=
              optStrOr (c.structureCategoryInfo.map (fun i => i.name))
                (categoryIdStr c.selectedStructureCategory)
            structureCategorySqRange :=
              optStrOr (c.structureCategoryInfo.map (fun i => i.sqRange)) ""
            structureType := c.structureType
            primaryPitch := c.primaryPitch
            secondaryPitch := c.secondaryPitch
            specialInstructions := c.specialInstructions
            basePrice := getBasePrice c
            addonsTotal := getAddonsTotal c
            totalPrice := getTotalPrice c }

/-! ### Order-review component (`confirmOrder`) -/

/-- The authenticated user as seen by `confirmOrder`. -/
structure AuthUser where
  uid : String
  email : Option String
  displayName : Option String
deriving DecidableEq, Repr

/-- The `CreateOrderData` built by `confirmOrder` from the stored review
data; `priority` is the literal `medium`. -/
def confirmOrderData (stored : ReviewOrderData) (user : AuthUser) : CreateOrderData :=
  { customerId := user.uid
    customerEmail := optStrOr user.email ""
    customerName := optStrOr user.displayName (optStrOr user.email "Customer")
    projectAddress := stored.address
    latitude := orNullNum stored.latitude
    longitude := orNullNum stored.longitude
    location := stored.location
    reportType := stored.reportType
    addons := stored.addons
    structureCategory := orDefaultStr stored.structureCategory "basic"
    structureCategoryName := orDefaultStr stored.structureCategoryName "Basic Structure"
    structureCategorySqRange := orDefaultStr stored.structureCategorySqRange "< 30 SQs"
    primaryPitch := some (orDefaultStr stored.primaryPitch "")
    secondaryPitch := some (orDefaultStr stored.secondaryPitch "")
    specialInstructions := some (orDefaultStr stored.specialInstructions "")
    basePrice := stored.basePrice
    addonsTotal := stored.addonsTotal
    totalPrice := stored.totalPrice
    priority := .medium }

/-! ### Role guard (role.guard.ts) -/

/-- The authenticated user as seen by the guard. -/
structure GuardUser where
  uid : String
deriving DecidableEq, Repr

/-- A user profile document; only the role is inspected by the guard. -/
structure UserProfile where
  role : String
deriving DecidableEq, Repr

/-- Outcome of a guard: activation, or denial with the redirect issued
to the router. -/
inductive GuardOutcome where
  | allow : GuardOutcome
  | deny : List String → GuardOutcome
deriving DecidableEq, Repr

/-- `roleGuard(allowedRoles)` after auth loading has finished: the
current user (if any) and the profile lookup are the guard's inputs. -/
def roleGuard (allowedRoles : List String) (user : Option GuardUser)
    (profileOf : String → Option UserProfile) : GuardOutcome :=
  match user with
  | none => .deny ["/signin"]
  | some u =>
      match profileOf u.uid with
      | none => .deny ["/"]
      | some profile =>
          if profile.role ∈ allowedRoles then .allow
          else if profile.role = "admin" then .deny ["/dashboard/admin/orders"]
          else if profile.role = "designer" then .deny ["/dashboard/designer/orders"]
          else if profile.role = "customer" then .deny ["/dashboard/customer/orders"]
          else .deny ["/"]

/-! ### Concrete fixtures used by witness theorems -/

/-- Projection of an order to its price snapshot fields. -/
def pricingSnapshot (o : Order) : OrderReportType × List OrderAddon × Int × Int × Int :=
  (o.reportType, o.addons, o.basePrice, o.addonsTotal, o.totalPrice)

/-- A report type as loaded by the new-order component for the basic
category. -/
def exReportType : OrderReportType :=
  { id := "roof_esx_only", name := "Roof ESX only", description := "ESX format", price := 14 }

/-- A selected addon fixture. -/
def exAddon : NewOrderAddon :=
  { id := "basic_fence", name := "Fence", price := 8, badge := none }

/-- A new-order component state with one selected report type and one
selected addon. -/
def c1State : NewOrderState :=
  { reportTypes := [exReportType]
    reportTypeControl := some "roof_esx_only"
    selectedAddons := [exAddon]
    address := "1 Main St"
    selectedLocation := none
    selectedStructureCategory := .basic
    structureCategoryInfo := none
    structureType := "main"
    primaryPitch := ""
    secondaryPitch := ""
    specialInstructions := "" }

/-- The review data `onSubmit` produces for `c1State`. -/
def c1Review : ReviewOrderData :=
  { address := "1 Main St"
    location := none
    latitude := none
    longitude := none
    reportType := exReportType
    addons := [{ id := "basic_fence", name := "Fence", price := 8 }]
    structureCategory := "basic"
    structureCategoryName := "basic"
    structureCategorySqRange := ""
    structureType := "main"
    primaryPitch := ""
    secondaryPitch := ""
    specialInstructions := ""
    basePrice := 14
    addonsTotal := 8
    totalPrice := 22 }

/-- A stored order fixture. -/
def exOrder : Order :=
  { orderNumber := "ORD-2024-000001"
    customerId := "cust1"
    customerEmail := "c@example.com"
    customerName := "Cust"
    assignedDesignerId := none
    assignedDesignerEmail := none
    projectAddress := "1 Main St"
    latitude := none
    longitude := none
    location := none
    reportType := exReportType
    addons := []
    structureCategory := "basic"
    structureCategoryName := "Basic Structure"
    structureCategorySqRange := "< 30 SQs"
    primaryPitch := ""
    secondaryPitch := ""
    specialInstructions := ""
    basePrice := 14
    addonsTotal := 0
    totalPrice := 14
    status := .pending
    statusTimeline := []
    siteImages := []
    designFiles := []
    createdAt := 0
    updatedAt := 0
    completedAt := none
    priority := .medium
    projectName := "Roof ESX only - 1 Main St"
    projectDescription := "" }

/-- The empty Firestore state. -/
def emptyState : AppState :=
  { orders := fun _ => none, messages := fun _ _ => none }

/-- A message fixture already read by its sender. -/
def exMsg : OrderMessage :=
  { orderId := "o1"
    senderId := "alice"
    senderEmail := "alice@example.com"
    senderRole := .customer
    message := "hi"
    attachments := []
    createdAt := 0
    isRead := false
    readBy := ["alice"] }

/-- A state holding `exMsg` under order `o1`, message id `m1`. -/
def msgState : AppState :=
  { orders := fun _ => none
    messages := fun oid mid => if oid = "o1" ∧ mid = "m1" then some exMsg else none }

/-- A profile lookup answering the admin role for every uid. -/
def adminProfileOf : String → Option UserProfile :=
  fun _ => some { role := "admin" }

/-! ### Theorems -/

/-- Folding addition of addon prices equals the sum of the price list. -/
theorem foldl_add_price (l : List NewOrderAddon) (init : Int) :
    l.foldl (fun total addon => total + addon.price) init
      = init + (l.map (fun a => a.price)).sum := by
  induction l generalizing init with
  | nil => simp
  | cons a as ih => simp [List.foldl_cons, List.map_cons, List.sum_cons, ih, add_assoc]

/-- C1: in the new-order component, `getTotalPrice` returns
`getBasePrice + getAddonsTotal`, `getAddonsTotal` is the sum of the
selected addon prices, `getBasePrice` is the selected report type price
(0 when nothing is selected), and the order data that `onSubmit` stores
for review carries exactly these three values as `basePrice`,
`addonsTotal` and `totalPrice`. -/
theorem newOrder_total_price_snapshot (c : NewOrderState) :
    getTotalPrice c = getBasePrice c + getAddonsTotal c
    ∧ getAddonsTotal c = (c.selectedAddons.map (fun a => a.price)).sum
    ∧ (getSelectedReportType c = none → getBasePrice c = 0)
    ∧ (∀ t, getSelectedReportType c = some t → getBasePrice c = t.price)
    ∧ (∀ d, onSubmit c = some d →
        d.basePrice = getBasePrice c ∧ d.addonsTotal = getAddonsTotal c
          ∧ d.totalPrice = getTotalPrice c) := by
  refine ⟨rfl, ?_, ?_, ?_, ?_⟩
  · unfold getAddonsTotal
    rw [foldl_add_price, zero_add]
  · intro h
    simp [getBasePrice, h]
  · intro t h
    simp [getBasePrice, h]
  · intro d h
    unfold onSubmit at h
    split at h
    · exact absurd h (by simp)
    · split at h
      · exact absurd h (by simp)
      · injection h with h
        subst h
        exact ⟨rfl, rfl, rfl⟩

/-- Witness for C1 at a concrete component state. -/
theorem newOrder_total_price_snapshot_witness :
    getTotalPrice c1State = getBasePrice c1State + getAddonsTotal c1State
    ∧ getBasePrice c1State = 14 ∧ getAddonsTotal c1State = 8
    ∧ onSubmit c1State = some c1Review
    ∧ c1Review.basePrice = getBasePrice c1State
    ∧ c1Review.addonsTotal = getAddonsTotal c1State
    ∧ c1Review.totalPrice = getTotalPrice c1State := by
  have h := newOrder_total_price_snapshot c1State
  have hs : onSubmit c1State = some c1Review := by decide
  exact ⟨h.1, by decide, by decide, hs,
    (h.2.2.2.2 c1Review hs).1, (h.2.2.2.2 c1Review hs).2.1, (h.2.2.2.2 c1Review hs).2.2⟩

/-- C2: the status timeline is append-only.  `updateOrderStatus` and
`assignDesigner` each write the previous timeline with exactly one new
entry appended at the end, `createOrder` writes a one-entry timeline,
and after `updateOrderStatus` the order status equals the status of the
last timeline entry. -/
theorem statusTimeline_append_only (o : Order) (newStatus : OrderStatus)
    (changedBy changedByEmail : String) (changedByRole : ChangedByRole)
    (notes : Option String)
    (designerId designerEmail assignedBy assignedByEmail : String)
    (data : CreateOrderData) (createdBy orderNumber : String) (ts : Nat) :
    (updateOrderStatusUpd o newStatus changedBy changedByEmail changedByRole notes ts).statusTimeline
      = o.statusTimeline
        ++ [{ status := newStatus, changedAt := ts, changedBy := changedBy,
              changedByEmail := changedByEmail, changedByRole := changedByRole,
              notes := optStrOr notes "" }]
    ∧ (assignDesignerUpd o designerId designerEmail assignedBy assignedByEmail ts).statusTimeline
      = o.statusTimeline
        ++ [{ status := o.status, changedAt := ts, changedBy := assignedBy,
              changedByEmail := assignedByEmail, changedByRole := .admin,
              notes := "Assigned to designer: " ++ designerEmail }]
    ∧ (createOrder data createdBy ts orderNumber).statusTimeline
      = [{ status := .pending, changedAt := ts, changedBy := createdBy,
           changedByEmail := data.customerEmail, changedByRole := .customer,
           notes := "Order created" }]
    ∧ ((updateOrderStatusUpd o newStatus changedBy changedByEmail changedByRole notes ts).statusTimeline.getLast?).map
        (fun e => e.status)
      = some (updateOrderStatusUpd o newStatus changedBy changedByEmail changedByRole notes ts).status := by
  refine ⟨rfl, rfl, rfl, ?_⟩
  simp [updateOrderStatusUpd]

/-- C3: `createOrder` stores an order with status `pending`, a single
`pending` timeline entry created by the customer with notes
`Order created`, and a price snapshot copied field for field from the
submitted data. -/
theorem createOrder_initial_state (data : CreateOrderData) (createdBy : String)
    (ts : Nat) (orderNumber : String) :
    (createOrder data createdBy ts orderNumber).status = .pending
    ∧ (createOrder data createdBy ts orderNumber).statusTimeline
      = [{ status := .pending, changedAt := ts, changedBy := createdBy,
           changedByEmail := data.customerEmail, changedByRole := .customer,
           notes := "Order created" }]
    ∧ (createOrder data createdBy ts orderNumber).reportType = data.reportType
    ∧ (createOrder data createdBy ts orderNumber).addons = data.addons
    ∧ (createOrder data createdBy ts orderNumber).basePrice = data.basePrice
    ∧ (createOrder data createdBy ts orderNumber).addonsTotal = data.addonsTotal
    ∧ (createOrder data createdBy ts orderNumber).totalPrice = data.totalPrice :=
  ⟨rfl, rfl, rfl, rfl, rfl, rfl, rfl⟩

/-- Counterexample to C4 as stated: `basic` and `moderate` are distinct
categories, yet `getPricingByCategory` offers them exactly the same
report-type list (the source repeats one literal per category and its
comment notes report types are the same across all categories). -/
theorem pricing_reportTypes_not_distinct :
    StructureCategoryId.basic ≠ StructureCategoryId.moderate
    ∧ (getPricingByCategory .basic).map (fun p => p.reportTypes)
      = (getPricingByCategory .moderate).map (fun p => p.reportTypes) :=
  ⟨by decide, by decide⟩

/-- C4 (amended): for every category id `getPricingByCategory` returns a
non-null pricing for that category; distinct categories have distinct
addon prices for their tier, while the report-type list is identical
across all categories. -/
theorem pricing_by_category_corrected :
    (∀ c : StructureCategoryId,
      ∃ p, getPricingByCategory c = some p ∧ p.category.id = c)
    ∧ (∀ a b : StructureCategoryId, a ≠ b →
        categoryAddonPrices a ≠ categoryAddonPrices b)
    ∧ (∀ a b : StructureCategoryId, categoryReportTypes a = categoryReportTypes b) := by
  refine ⟨?_, ?_, ?_⟩
  · intro c
    cases c <;> exact ⟨_, rfl, rfl⟩
  · intro a b hab
    cases a <;> cases b <;> first | exact absurd rfl hab | decide
  · intro a b
    cases a <;> cases b <;> rfl

/-- Witness for C4 (amended) at the basic and moderate categories. -/
theorem pricing_by_category_corrected_witness :
    (∃ p, getPricingByCategory .basic = some p ∧ p.category.id = .basic)
    ∧ categoryAddonPrices .basic ≠ categoryAddonPrices .moderate
    ∧ categoryReportTypes .basic = categoryReportTypes .moderate :=
  ⟨pricing_by_category_corrected.1 .basic,
   pricing_by_category_corrected.2.1 .basic .moderate (by decide),
   pricing_by_category_corrected.2.2 .basic .moderate⟩

/-- C5: the price snapshot is immutable after creation.  Each of the
order updates preserves `reportType`, `addons`, `basePrice`,
`addonsTotal` and `totalPrice`; the file updates touch only their own
array; status and designer updates leave the other groups alone;
`addMessage` writes a message subdocument and leaves the orders
collection untouched. -/
theorem price_snapshot_immutable (o : Order) (newStatus : OrderStatus)
    (changedBy changedByEmail : String) (changedByRole : ChangedByRole)
    (notes : Option String)
    (designerId designerEmail assignedBy assignedByEmail : String)
    (imageUrls fileUrls : List String) (st : AppState)
    (orderId messageId senderId senderEmail : String) (senderRole : ChangedByRole)
    (message : String) (attachments : Option (List String)) (ts : Nat) :
    pricingSnapshot (updateOrderStatusUpd o newStatus changedBy changedByEmail changedByRole notes ts)
      = pricingSnapshot o
    ∧ pricingSnapshot (assignDesignerUpd o designerId designerEmail assignedBy assignedByEmail ts)
      = pricingSnapshot o
    ∧ pricingSnapshot (addSiteImagesUpd o imageUrls) = pricingSnapshot o
    ∧ pricingSnapshot (addDesignFilesUpd o fileUrls) = pricingSnapshot o
    ∧ addSiteImagesUpd o imageUrls = { o with siteImages := o.siteImages ++ imageUrls }
    ∧ addDesignFilesUpd o fileUrls = { o with designFiles := o.designFiles ++ fileUrls }
    ∧ (assignDesignerUpd o designerId designerEmail assignedBy assignedByEmail ts).status = o.status
    ∧ (assignDesignerUpd o designerId designerEmail assignedBy assignedByEmail ts).completedAt = o.completedAt
    ∧ (updateOrderStatusUpd o newStatus changedBy changedByEmail changedByRole notes ts).assignedDesignerId
      = o.assignedDesignerId
    ∧ (updateOrderStatusUpd o newStatus changedBy changedByEmail changedByRole notes ts).siteImages
      = o.siteImages
    ∧ (updateOrderStatusUpd o newStatus changedBy changedByEmail changedByRole notes ts).designFiles
      = o.designFiles
    ∧ (addMessageS st orderId messageId senderId senderEmail senderRole message attachments ts).orders
      = st.orders :=
  ⟨rfl, rfl, rfl, rfl, rfl, rfl, rfl, rfl, rfl, rfl, rfl, rfl⟩

/-- C6: `updateOrderStatus` sets `completedAt` exactly when the new
status is `completed` and leaves it unchanged otherwise, while always
updating status, timeline and `updatedAt`. -/
theorem updateOrderStatus_completedAt (o : Order) (newStatus : OrderStatus)
    (changedBy changedByEmail : String) (changedByRole : ChangedByRole)
    (notes : Option String) (ts : Nat) :
    (newStatus = .completed →
      (updateOrderStatusUpd o newStatus changedBy changedByEmail changedByRole notes ts).completedAt
        = some ts)
    ∧ (newStatus ≠ .completed →
      (updateOrderStatusUpd o newStatus changedBy changedByEmail changedByRole notes ts).completedAt
        = o.completedAt)
    ∧ (updateOrderStatusUpd o newStatus changedBy changedByEmail changedByRole notes ts).status = newStatus
    ∧ (updateOrderStatusUpd o newStatus changedBy changedByEmail changedByRole notes ts).statusTimeline
      = o.statusTimeline
        ++ [{ status := newStatus, changedAt := ts, changedBy := changedBy,
              changedByEmail := changedByEmail, changedByRole := changedByRole,
              notes := optStrOr notes "" }]
    ∧ (updateOrderStatusUpd o newStatus changedBy changedByEmail changedByRole notes ts).updatedAt = ts := by
  refine ⟨?_, ?_, rfl, rfl, rfl⟩
  · intro h
    simp [updateOrderStatusUpd, h]
  · intro h
    simp [updateOrderStatusUpd, h]

/-- Witness for C6 at a completed and a non-completed status. -/
theorem updateOrderStatus_completedAt_witness :
    (updateOrderStatusUpd exOrder .completed "a" "a@example.com" .admin none 5).completedAt = some 5
    ∧ (updateOrderStatusUpd exOrder .review "a" "a@example.com" .admin none 5).completedAt
      = exOrder.completedAt :=
  ⟨(updateOrderStatus_completedAt exOrder .completed "a" "a@example.com" .admin none 5).1 rfl,
   (updateOrderStatus_completedAt exOrder .review "a" "a@example.com" .admin none 5).2.1 (by decide)⟩

/-- C7: the role guard activates exactly when there is an authenticated
user whose profile exists and whose role is in the allowed list; in
every other case it denies activation and issues a redirect. -/
theorem roleGuard_access (allowedRoles : List String) (user : Option GuardUser)
    (profileOf : String → Option UserProfile) :
    (roleGuard allowedRoles user profileOf = .allow
      ↔ ∃ u profile, user = some u ∧ profileOf u.uid = some profile
          ∧ profile.role ∈ allowedRoles)
    ∧ (roleGuard allowedRoles user profileOf ≠ .allow →
        ∃ target, roleGuard allowedRoles user profileOf = .deny target) := by
  constructor
  · constructor
    · intro h
      rcases user with _ | u
      · simp [roleGuard] at h
      · rcases hp : profileOf u.uid with _ | profile
        · simp [roleGuard, hp] at h
        · refine ⟨u, profile, rfl, hp, ?_⟩
          by_contra hr
          simp only [roleGuard, hp] at h
          rw [if_neg hr] at h
          split_ifs at h
    · rintro ⟨u, profile, hu, hp, hr⟩
      subst hu
      simp [roleGuard, hp, hr]
  · intro h
    cases hg : roleGuard allowedRoles user profileOf with
    | allow => exact absurd hg h
    | deny target => exact ⟨target, rfl⟩

/-- Witness for C7: an admin passes the admin guard; an unauthenticated
user is denied with a redirect. -/
theorem roleGuard_access_witness :
    roleGuard ["admin"] (some { uid := "u1" }) adminProfileOf = .allow
    ∧ (∃ target, roleGuard ["admin"] none adminProfileOf = .deny target) :=
  ⟨(roleGuard_access ["admin"] (some { uid := "u1" }) adminProfileOf).1.mpr
      ⟨{ uid := "u1" }, { role := "admin" }, rfl, rfl, by decide⟩,
   (roleGuard_access ["admin"] none adminProfileOf).2 (by decide)⟩

/-- C8: when `getOrder` finds nothing, each mutation throws
`Order not found` and leaves the store unchanged. -/
theorem missing_order_no_write (st : AppState) (orderId : String)
    (newStatus : OrderStatus) (changedBy changedByEmail : String)
    (changedByRole : ChangedByRole) (notes : Option String)
    (designerId designerEmail assignedBy assignedByEmail : String)
    (imageUrls fileUrls : List String) (ts : Nat)
    (h : getOrder st orderId = none) :
    updateOrderStatusS st orderId newStatus changedBy changedByEmail changedByRole notes ts
      = (.error "Order not found", st)
    ∧ assignDesignerS st orderId designerId designerEmail assignedBy assignedByEmail ts
      = (.error "Order not found", st)
    ∧ addSiteImagesS st orderId imageUrls = (.error "Order not found", st)
    ∧ addDesignFilesS st orderId fileUrls = (.error "Order not found", st) := by
  refine ⟨?_, ?_, ?_, ?_⟩ <;>
    simp [updateOrderStatusS, assignDesignerS, addSiteImagesS, addDesignFilesS, h]

/-- Witness for C8 on the empty store. -/
theorem missing_order_no_write_witness :
    updateOrderStatusS emptyState "missing" .review "a" "a@example.com" .admin none 0
      = (.error "Order not found", emptyState)
    ∧ addSiteImagesS emptyState "missing" ["img"] = (.error "Order not found", emptyState) :=
  ⟨(missing_order_no_write emptyState "missing" .review "a" "a@example.com" .admin none
      "d" "d@example.com" "b" "b@example.com" ["img"] [] 0 rfl).1,
   (missing_order_no_write emptyState "missing" .review "a" "a@example.com" .admin none
      "d" "d@example.com" "b" "b@example.com" ["img"] [] 0 rfl).2.2.1⟩

/-- C9: `confirmOrder` always submits priority `medium` whatever the
stored order data (addons included), and `createOrder` stores the given
priority verbatim, so the stored priority of a confirmed order is
always `medium`. -/
theorem rush_addon_priority_medium (stored : ReviewOrderData) (user : AuthUser)
    (data : CreateOrderData) (createdBy : String) (ts : Nat) (orderNumber : String) :
    (confirmOrderData stored user).priority = .medium
    ∧ (createOrder data createdBy ts orderNumber).priority = data.priority
    ∧ (createOrder (confirmOrderData stored user) createdBy ts orderNumber).priority = .medium :=
  ⟨rfl, rfl, rfl⟩

/-- When `userId` is already in `readBy`, `markMessageAsRead` writes
nothing. -/
theorem markMessageAsRead_noop (st : AppState) (orderId messageId userId : String)
    (m : OrderMessage) (hm : st.messages orderId messageId = some m)
    (hin : userId ∈ m.readBy) :
    markMessageAsRead st orderId messageId userId = st := by
  simp [markMessageAsRead, hm, hin]

/-- When `userId` is not yet in `readBy`, `markMessageAsRead` appends it
and sets `isRead`. -/
theorem markMessageAsRead_write (st : AppState) (orderId messageId userId : String)
    (m : OrderMessage) (hm : st.messages orderId messageId = some m)
    (hin : userId ∉ m.readBy) :
    (markMessageAsRead st orderId messageId userId).messages orderId messageId
      = some { m with readBy := m.readBy ++ [userId], isRead := true } := by
  simp [markMessageAsRead, hm, hin, setMessage]

/-- C10: `markMessageAsRead` adds `userId` to `readBy` only when absent
(after which `isRead` is true), preserves freedom from duplicates, and
is idempotent: a second call with the same user changes nothing. -/
theorem markMessageAsRead_idempotent (st : AppState) (orderId messageId userId : String) :
    (∀ m, st.messages orderId messageId = some m → userId ∈ m.readBy →
        markMessageAsRead st orderId messageId userId = st)
    ∧ (∀ m, st.messages orderId messageId = some m → userId ∉ m.readBy →
        (markMessageAsRead st orderId messageId userId).messages orderId messageId
          = some { m with readBy := m.readBy ++ [userId], isRead := true })
    ∧ (∀ m mNew, st.messages orderId messageId = some m → m.readBy.Nodup →
        (markMessageAsRead st orderId messageId userId).messages orderId messageId = some mNew →
        mNew.readBy.Nodup)
    ∧ markMessageAsRead (markMessageAsRead st orderId messageId userId) orderId messageId userId
      = markMessageAsRead st orderId messageId userId := by
  refine ⟨fun m hm hin => markMessageAsRead_noop st orderId messageId userId m hm hin,
          fun m hm hin => markMessageAsRead_write st orderId messageId userId m hm hin,
          ?_, ?_⟩
  · intro m mNew hm hnd hmNew
    by_cases hin : userId ∈ m.readBy
    · rw [markMessageAsRead_noop st orderId messageId userId m hm hin, hm] at hmNew
      rw [← Option.some.inj hmNew]
      exact hnd
    · rw [markMessageAsRead_write st orderId messageId userId m hm hin] at hmNew
      rw [← Option.some.inj hmNew]
      refine List.Nodup.append hnd (List.nodup_singleton userId) ?_
      intro x hx hy
      rw [List.mem_singleton] at hy
      subst hy
      exact hin hx
  · cases hm : st.messages orderId messageId with
    | none =>
        have h1 : markMessageAsRead st orderId messageId userId = st := by
          simp [markMessageAsRead, hm]
        rw [h1]
        exact h1
    | some m =>
        by_cases hin : userId ∈ m.readBy
        · have h1 := markMessageAsRead_noop st orderId messageId userId m hm hin
          rw [h1]
          exact h1
        · exact markMessageAsRead_noop _ orderId messageId userId _
            (markMessageAsRead_write st orderId messageId userId m hm hin) (by simp)

/-- Witness for C10: marking by the sender changes nothing; marking by a
new reader appends exactly that reader and sets `isRead`. -/
theorem markMessageAsRead_idempotent_witness :
    markMessageAsRead msgState "o1" "m1" "alice" = msgState
    ∧ (markMessageAsRead msgState "o1" "m1" "bob").messages "o1" "m1"
      = some { exMsg with readBy := exMsg.readBy ++ ["bob"], isRead := true } :=
  ⟨(markMessageAsRead_idempotent msgState "o1" "m1" "alice").1 exMsg (by decide) (by decide),
   (markMessageAsRead_idempotent msgState "o1" "m1" "bob").2.1 exMsg (by decide) (by decide)⟩

end Roofrix
